import Mathlib

/-!
Verification of the Rhai script agent bridge (`src/agents.rs`):
the bidirectional value converter between the host's tagged value model
(`AgentValue`) and the scripting engine's dynamic value (`Dynamic`), and the
script agent lifecycle (`new`, `set_script`, `configs_changed`, `process`).

Modelling notes:
  - 64-bit floats appear only as payloads that the converters move around
    unchanged (no arithmetic is ever performed on them), so the `f64` payload
    is modelled as its IEEE-754 bit pattern, a `Nat`.
  - `AgentValue` is an external type of the host framework; the reviewed code
    matches on the seven structural variants and treats all remaining variants
    through a catch-all `_` arm.  These open-ended extension variants are
    modelled by a single `other` constructor carrying an abstract payload id.
  - Rust's `Result<T, E>` is `Except E T`; maps are association lists in the
    iteration order the loops in the source observe.
-/

namespace RhaiAgents

/-- The host pipeline's tagged value (`AgentValue` in `agent_stream_kit`).
Variants `Unit`, `Boolean`, `Integer`, `Number`, `String`, `Array`, `Object`
are the structural ones matched by name in `from_value_to_dynamic`; `other`
stands for every other (extension) variant, which the code's `_` arm handles. -/
inductive AgentValue where
  | unit : AgentValue
  | boolean (b : Bool) : AgentValue
  | integer (i : Int) : AgentValue
  | number (bits : Nat) : AgentValue
  | string (s : String) : AgentValue
  | array (xs : List AgentValue) : AgentValue
  | object (m : List (String × AgentValue)) : AgentValue
  | other (payload : Nat) : AgentValue
deriving Repr

/-- The scripting engine's dynamic value (`rhai::Dynamic`).  Constructors
mirror the type tests `is_unit`, `is_bool`, `is_int`, `is_float`,
`is_string`, `is_array`, `is_map`, `is::<AgentValue>()` performed by
`from_dynamic_to_value`; `foreign` covers every other native type and carries
what `type_name()` reports for it. -/
inductive Dyn where
  | unit : Dyn
  | boolean (b : Bool) : Dyn
  | int (i : Int) : Dyn
  | float (bits : Nat) : Dyn
  | str (s : String) : Dyn
  | array (xs : List Dyn) : Dyn
  | map (m : List (String × Dyn)) : Dyn
  | wrapped (v : AgentValue) : Dyn
  | foreign (typeName : String) : Dyn
deriving Repr

/-- The host framework's error type, restricted to the variants the reviewed
code constructs (`AgentError::IoError`, `AgentError::InvalidValue`). -/
inductive AgentError where
  | ioError (msg : String) : AgentError
  | invalidValue (msg : String) : AgentError
deriving Repr, DecidableEq

mutual

/-- `from_value_to_dynamic` (src/agents.rs:116-143): host tagged value to
native dynamic.  The `_` arm of the Rust match (every extension variant) puts
the `AgentValue` itself, unconverted, into the dynamic's custom-type slot. -/
def from_value_to_dynamic : AgentValue → Except AgentError Dyn
  | .unit => .ok .unit
  | .boolean b => .ok (.boolean b)
  | .integer i => .ok (.int i)
  | .number bits => .ok (.float bits)
  | .string s => .ok (.str s)
  | .array arr =>
    match fvtdList arr with
    | .error e => .error e
    | .ok ds => .ok (.array ds)
  | .object m =>
    match fvtdMap m with
    | .error e => .error e
    | .ok dm => .ok (.map dm)
  | .other payload => .ok (.wrapped (.other payload))

/-- The element loop of the `Array` arm of `from_value_to_dynamic`
(src/agents.rs:123-130): convert each element in order, aborting on the
first error via `?`. -/
def fvtdList : List AgentValue → Except AgentError (List Dyn)
  | [] => .ok []
  | v :: vs =>
    match from_value_to_dynamic v with
    | .error e => .error e
    | .ok d =>
      match fvtdList vs with
      | .error e => .error e
      | .ok ds => .ok (d :: ds)

/-- The entry loop of the `Object` arm of `from_value_to_dynamic`
(src/agents.rs:131-138): convert each entry's value in iteration order,
keeping the key, aborting on the first error via `?`. -/
def fvtdMap : List (String × AgentValue) → Except AgentError (List (String × Dyn))
  | [] => .ok []
  | (k, v) :: ms =>
    match from_value_to_dynamic v with
    | .error e => .error e
    | .ok d =>
      match fvtdMap ms with
      | .error e => .error e
      | .ok dm => .ok ((k, d) :: dm)

end

mutual

/-- `from_dynamic_to_value` (src/agents.rs:145-208): native dynamic back to a
host tagged value.  The chain of `is_*` tests is a dispatch on the dynamic's
actual type; a dynamic holding a previously wrapped `AgentValue` is extracted
by `cast`; any other native type hits the final error with its type name. -/
def from_dynamic_to_value : Dyn → Except AgentError AgentValue
  | .unit => .ok .unit
  | .boolean b => .ok (.boolean b)
  | .int i => .ok (.integer i)
  | .float bits => .ok (.number bits)
  | .str s => .ok (.string s)
  | .array xs =>
    match fdtvList xs with
    | .error e => .error e
    | .ok vs => .ok (.array vs)
  | .map m =>
    match fdtvMap m with
    | .error e => .error e
    | .ok vm => .ok (.object vm)
  | .wrapped v => .ok v
  | .foreign typeName =>
    .error (.invalidValue ("Unsupported Rhai data type: " ++ typeName))

/-- The element loop of the array branch of `from_dynamic_to_value`
(src/agents.rs:175-185): convert each element in order, aborting on the
first error via `?`. -/
def fdtvList : List Dyn → Except AgentError (List AgentValue)
  | [] => .ok []
  | d :: ds =>
    match from_dynamic_to_value d with
    | .error e => .error e
    | .ok v =>
      match fdtvList ds with
      | .error e => .error e
      | .ok vs => .ok (v :: vs)

/-- The entry loop of the map branch of `from_dynamic_to_value`
(src/agents.rs:187-197): convert each entry's value in iteration order,
keeping the key, aborting on the first error via `?`. -/
def fdtvMap : List (String × Dyn) → Except AgentError (List (String × AgentValue))
  | [] => .ok []
  | (k, d) :: dm =>
    match from_dynamic_to_value d with
    | .error e => .error e
    | .ok v =>
      match fdtvMap dm with
      | .error e => .error e
      | .ok vm => .ok ((k, v) :: vm)

end

mutual

/-- An `AgentValue` built only from the `Unit`, `Boolean`, `Integer`,
`Number`, `String`, `Array`, `Object` variants, to arbitrary finite depth. -/
def structural : AgentValue → Bool
  | .unit => true
  | .boolean _ => true
  | .integer _ => true
  | .number _ => true
  | .string _ => true
  | .array xs => structuralList xs
  | .object m => structuralMap m
  | .other _ => false

def structuralList : List AgentValue → Bool
  | [] => true
  | v :: vs => structural v && structuralList vs

def structuralMap : List (String × AgentValue) → Bool
  | [] => true
  | (_, v) :: ms => structural v && structuralMap ms

end

/-- A dynamic of a native type outside the enumerated ones (not unit, bool,
int, float, string, array, map, or a wrapped `AgentValue`). -/
def isForeign : Dyn → Bool
  | .foreign _ => true
  | _ => false

mutual

/-- A native value of type name `name` occurs somewhere inside `d`
(at the top or nested in arrays/maps). -/
def hasForeign (name : String) : Dyn → Bool
  | .unit => false
  | .boolean _ => false
  | .int _ => false
  | .float _ => false
  | .str _ => false
  | .array xs => hasForeignList name xs
  | .map m => hasForeignMap name m
  | .wrapped _ => false
  | .foreign typeName => typeName == name

def hasForeignList (name : String) : List Dyn → Bool
  | [] => false
  | d :: ds => hasForeign name d || hasForeignList name ds

def hasForeignMap (name : String) : List (String × Dyn) → Bool
  | [] => false
  | (_, d) :: dm => hasForeign name d || hasForeignMap name dm

end

/-- The agent's configuration object (`AgentConfigs` of the host framework,
external to src/).  The reviewed code only calls `get_string` on it, with the
fixed key `CONFIG_SCRIPT`; the accessor is modelled as a function from keys to
the `Result` it returns. -/
structure AgentConfigs where
  get_string : String → Except AgentError String

/-- The configuration key naming the script text (`CONFIG_SCRIPT = "script"`,
src/agents.rs:22). -/
def CONFIG_SCRIPT : String := "script"

/-- The single input/output port name (`PORT_VALUE = "value"`,
src/agents.rs:21). -/
def PORT_VALUE : String := "value"

/-- The state of one `RhaiScriptAgent` instance (src/agents.rs:35-38), over an
abstract type `AST` of compiled programs (`rhai::AST`).  `config` is the
configuration stored in the agent's `data` by `new`; `ast` is the optional
compiled program (`None` is the Uncompiled state, `Some` the Ready state). -/
structure RhaiScriptAgent (AST : Type) where
  config : Option AgentConfigs
  ast : Option AST

/-- Modelled from the spec: the host framework accessor `self.configs()`
(`agent_stream_kit`, not in src/), which per the configuration-read contract
of the spec returns the stored configuration, or an error when none is
stored. -/
def RhaiScriptAgent.configs {AST : Type} (self : RhaiScriptAgent AST) :
    Except AgentError AgentConfigs :=
  match self.config with
  | some c => .ok c
  | none => .error (.ioError "no configs")

/-- `RhaiScriptAgent::set_script` (src/agents.rs:41-52), parameterized by the
engine's `compile` (`rhai::Engine::compile`, opaque per the spec).  Returns
the `Result` together with the updated agent (`&mut self`); on a compile
error the early return `?` leaves `self.ast` untouched. -/
def set_script {AST : Type} (compile : String → Except String AST)
    (self : RhaiScriptAgent AST) (script : String) :
    Except AgentError Unit × RhaiScriptAgent AST :=
  if script.isEmpty then
    (.ok (), { self with ast := none })
  else
    match compile script with
    | .error e =>
      (.error (.ioError ("Rhai Compile Error: " ++ e)), self)
    | .ok ast => (.ok (), { self with ast := some ast })

/-- `RhaiScriptAgent::new` (src/agents.rs:57-75): read the script text from
the optional configuration, discarding a read failure via `.ok()` and
defaulting to the empty string; start with `ast = None`; compile only a
non-empty script, propagating its compile error (so no agent is returned). -/
def new {AST : Type} (compile : String → Except String AST)
    (config : Option AgentConfigs) : Except AgentError (RhaiScriptAgent AST) :=
  let script :=
    (config.bind (fun c => (c.get_string CONFIG_SCRIPT).toOption)).getD ""
  let agent : RhaiScriptAgent AST := { config := config, ast := none }
  if !script.isEmpty then
    match set_script compile agent script with
    | (.error e, _) => .error e
    | (.ok _, agent) => .ok agent
  else
    .ok agent

/-- `RhaiScriptAgent::configs_changed` (src/agents.rs:77-89): re-read the
script text, propagating both the `configs()` failure and the `get_string`
failure via `?`; empty text clears the program; non-empty text is recompiled,
a compile error is propagated and (by the early return) leaves `self.ast`
untouched. -/
def configs_changed {AST : Type} (compile : String → Except String AST)
    (self : RhaiScriptAgent AST) :
    Except AgentError Unit × RhaiScriptAgent AST :=
  match self.configs with
  | .error e => (.error e, self)
  | .ok c =>
    match c.get_string CONFIG_SCRIPT with
    | .error e => (.error e, self)
    | .ok script =>
      if script.isEmpty then
        (.ok (), { self with ast := none })
      else
        match compile script with
        | .error e =>
          (.error (.ioError ("Rhai Compile Error: " ++ e)), self)
        | .ok ast => (.ok (), { self with ast := some ast })

/-- `RhaiScriptAgent::process` (src/agents.rs:91-113), parameterized by the
engine's `eval_ast_with_scope` (opaque per the spec), which receives the
compiled program and the fresh scope — here always the single binding of the
converted input under the name `"value"`.  The first component collects the
values emitted through `try_output` on `PORT_VALUE` (empty on every error
path); the second is the updated agent (`&mut self`), which `process` never
mutates. -/
def process {AST : Type}
    (eval : AST → List (String × Dyn) → Except String Dyn)
    (self : RhaiScriptAgent AST) (value : AgentValue) :
    Except AgentError (List AgentValue) × RhaiScriptAgent AST :=
  match self.ast with
  | none => (.ok [], self)
  | some ast =>
    match from_value_to_dynamic value with
    | .error e => (.error e, self)
    | .ok d =>
      let scope : List (String × Dyn) := [("value", d)]
      match eval ast scope with
      | .error e =>
        (.error (.ioError ("Rhai Runtime Error: " ++ e)), self)
      | .ok result =>
        match from_dynamic_to_value result with
        | .error e => (.error e, self)
        | .ok out => (.ok [out], self)

/-! ### Helper lemmas -/

mutual

theorem roundtrip_val : ∀ (v : AgentValue), structural v = true →
    ∃ d, from_value_to_dynamic v = .ok d ∧ from_dynamic_to_value d = .ok v
  | .unit, _ => ⟨.unit, rfl, rfl⟩
  | .boolean b, _ => ⟨.boolean b, rfl, rfl⟩
  | .integer i, _ => ⟨.int i, rfl, rfl⟩
  | .number bits, _ => ⟨.float bits, rfl, rfl⟩
  | .string s, _ => ⟨.str s, rfl, rfl⟩
  | .array xs, h => by
    obtain ⟨ds, h1, h2⟩ := roundtrip_list xs (by simpa [structural] using h)
    exact ⟨.array ds, by simp [from_value_to_dynamic, h1],
      by simp [from_dynamic_to_value, h2]⟩
  | .object m, h => by
    obtain ⟨dm, h1, h2⟩ := roundtrip_map m (by simpa [structural] using h)
    exact ⟨.map dm, by simp [from_value_to_dynamic, h1],
      by simp [from_dynamic_to_value, h2]⟩

theorem roundtrip_list : ∀ (xs : List AgentValue), structuralList xs = true →
    ∃ ds, fvtdList xs = .ok ds ∧ fdtvList ds = .ok xs
  | [], _ => ⟨[], rfl, rfl⟩
  | v :: vs, h => by
    rw [structuralList, Bool.and_eq_true] at h
    obtain ⟨d, h1, h2⟩ := roundtrip_val v h.1
    obtain ⟨ds, h3, h4⟩ := roundtrip_list vs h.2
    exact ⟨d :: ds, by simp [fvtdList, h1, h3], by simp [fdtvList, h2, h4]⟩

theorem roundtrip_map : ∀ (ms : List (String × AgentValue)), structuralMap ms = true →
    ∃ dm, fvtdMap ms = .ok dm ∧ fdtvMap dm = .ok ms
  | [], _ => ⟨[], rfl, rfl⟩
  | (k, v) :: ms, h => by
    rw [structuralMap, Bool.and_eq_true] at h
    obtain ⟨d, h1, h2⟩ := roundtrip_val v h.1
    obtain ⟨dm, h3, h4⟩ := roundtrip_map ms h.2
    exact ⟨(k, d) :: dm, by simp [fvtdMap, h1, h3], by simp [fdtvMap, h2, h4]⟩

end

mutual

theorem fvtd_total_val : ∀ (v : AgentValue), ∃ d, from_value_to_dynamic v = .ok d
  | .unit => ⟨.unit, rfl⟩
  | .boolean b => ⟨.boolean b, rfl⟩
  | .integer i => ⟨.int i, rfl⟩
  | .number bits => ⟨.float bits, rfl⟩
  | .string s => ⟨.str s, rfl⟩
  | .array xs => by
    obtain ⟨ds, h⟩ := fvtd_total_list xs
    exact ⟨.array ds, by simp [from_value_to_dynamic, h]⟩
  | .object m => by
    obtain ⟨dm, h⟩ := fvtd_total_map m
    exact ⟨.map dm, by simp [from_value_to_dynamic, h]⟩
  | .other payload => ⟨.wrapped (.other payload), rfl⟩

theorem fvtd_total_list : ∀ (xs : List AgentValue), ∃ ds, fvtdList xs = .ok ds
  | [] => ⟨[], rfl⟩
  | v :: vs => by
    obtain ⟨d, h1⟩ := fvtd_total_val v
    obtain ⟨ds, h2⟩ := fvtd_total_list vs
    exact ⟨d :: ds, by simp [fvtdList, h1, h2]⟩

theorem fvtd_total_map : ∀ (ms : List (String × AgentValue)), ∃ dm, fvtdMap ms = .ok dm
  | [] => ⟨[], rfl⟩
  | (k, v) :: ms => by
    obtain ⟨d, h1⟩ := fvtd_total_val v
    obtain ⟨dm, h2⟩ := fvtd_total_map ms
    exact ⟨(k, d) :: dm, by simp [fvtdMap, h1, h2]⟩

end

mutual

theorem fdtv_error_from_foreign : ∀ (d : Dyn) (e : AgentError),
    from_dynamic_to_value d = .error e →
    ∃ name, e = .invalidValue ("Unsupported Rhai data type: " ++ name) ∧
      hasForeign name d = true
  | .unit, _ => by intro h; simp [from_dynamic_to_value] at h
  | .boolean b, _ => by intro h; simp [from_dynamic_to_value] at h
  | .int i, _ => by intro h; simp [from_dynamic_to_value] at h
  | .float bits, _ => by intro h; simp [from_dynamic_to_value] at h
  | .str s, _ => by intro h; simp [from_dynamic_to_value] at h
  | .wrapped v, _ => by intro h; simp [from_dynamic_to_value] at h
  | .foreign typeName, e => by
    intro h
    rw [from_dynamic_to_value] at h
    exact ⟨typeName, by simpa using h.symm, by simp [hasForeign]⟩
  | .array xs, e => by
    intro h
    rw [from_dynamic_to_value] at h
    rcases h1 : fdtvList xs with e1 | vs
    · obtain ⟨name, he, hf⟩ := fdtv_error_from_foreign_list xs e1 h1
      rw [h1] at h
      exact ⟨name, by simpa [he] using h.symm, by simpa [hasForeign] using hf⟩
    · rw [h1] at h
      simp at h
  | .map m, e => by
    intro h
    rw [from_dynamic_to_value] at h
    rcases h1 : fdtvMap m with e1 | vm
    · obtain ⟨name, he, hf⟩ := fdtv_error_from_foreign_map m e1 h1
      rw [h1] at h
      exact ⟨name, by simpa [he] using h.symm, by simpa [hasForeign] using hf⟩
    · rw [h1] at h
      simp at h

theorem fdtv_error_from_foreign_list : ∀ (ds : List Dyn) (e : AgentError),
    fdtvList ds = .error e →
    ∃ name, e = .invalidValue ("Unsupported Rhai data type: " ++ name) ∧
      hasForeignList name ds = true
  | [], _ => by intro h; simp [fdtvList] at h
  | d :: ds, e => by
    intro h
    rw [fdtvList] at h
    rcases h1 : from_dynamic_to_value d with e1 | v
    · obtain ⟨name, he, hf⟩ := fdtv_error_from_foreign d e1 h1
      rw [h1] at h
      exact ⟨name, by simpa [he] using h.symm, by simp [hasForeignList, hf]⟩
    · rw [h1] at h
      rcases h2 : fdtvList ds with e2 | vs
      · obtain ⟨name, he, hf⟩ := fdtv_error_from_foreign_list ds e2 h2
        rw [h2] at h
        exact ⟨name, by simpa [he] using h.symm, by simp [hasForeignList, hf]⟩
      · rw [h2] at h
        simp at h

theorem fdtv_error_from_foreign_map : ∀ (dm : List (String × Dyn)) (e : AgentError),
    fdtvMap dm = .error e →
    ∃ name, e = .invalidValue ("Unsupported Rhai data type: " ++ name) ∧
      hasForeignMap name dm = true
  | [], _ => by intro h; simp [fdtvMap] at h
  | (k, d) :: dm, e => by
    intro h
    rw [fdtvMap] at h
    rcases h1 : from_dynamic_to_value d with e1 | v
    · obtain ⟨name, he, hf⟩ := fdtv_error_from_foreign d e1 h1
      rw [h1] at h
      exact ⟨name, by simpa [he] using h.symm, by simp [hasForeignMap, hf]⟩
    · rw [h1] at h
      rcases h2 : fdtvMap dm with e2 | vm
      · obtain ⟨name, he, hf⟩ := fdtv_error_from_foreign_map dm e2 h2
        rw [h2] at h
        exact ⟨name, by simpa [he] using h.symm, by simp [hasForeignMap, hf]⟩
      · rw [h2] at h
        simp at h

end

theorem fdtvList_first_error (x : Dyn) (e : AgentError) (post : List Dyn) :
    ∀ (pre : List Dyn), (∀ y ∈ pre, ∃ v, from_dynamic_to_value y = .ok v) →
    from_dynamic_to_value x = .error e →
    fdtvList (pre ++ x :: post) = .error e
  | [], _, hx => by simp [fdtvList, hx]
  | y :: pre, hpre, hx => by
    obtain ⟨v, hv⟩ := hpre y (by simp)
    have ih := fdtvList_first_error x e post pre
      (fun z hz => hpre z (by simp [hz])) hx
    simp [fdtvList, hv, ih]

theorem fdtvMap_first_error (k : String) (x : Dyn) (e : AgentError)
    (mpost : List (String × Dyn)) :
    ∀ (mpre : List (String × Dyn)),
    (∀ p ∈ mpre, ∃ v, from_dynamic_to_value p.2 = .ok v) →
    from_dynamic_to_value x = .error e →
    fdtvMap (mpre ++ (k, x) :: mpost) = .error e
  | [], _, hx => by simp [fdtvMap, hx]
  | (k1, y) :: mpre, hpre, hx => by
    obtain ⟨v, hv⟩ := hpre (k1, y) (by simp)
    have ih := fdtvMap_first_error k x e mpost mpre
      (fun p hp => hpre p (by simp [hp])) hx
    simp [fdtvMap, hv, ih]

/-! ### Claim theorems -/

/-- C1: For every Tagged Value built only from the `Unit`, `Boolean`,
`Integer`, `Number`, `String`, `Array`, `Object` variants (arbitrary finite
nesting), converting it with `from_value_to_dynamic` and back with
`from_dynamic_to_value` succeeds and returns the original value. -/
theorem roundtrip_structural (v : AgentValue) (h : structural v = true) :
    (from_value_to_dynamic v).bind from_dynamic_to_value = .ok v := by
  obtain ⟨d, h1, h2⟩ := roundtrip_val v h
  rw [h1]
  simpa [Except.bind] using h2

/-- Witness for C1 at a concrete nested value. -/
theorem roundtrip_structural_witness :
    structural (.object [("a", .integer 1),
      ("b", .array [.boolean true, .string "x"])]) = true ∧
    (from_value_to_dynamic (.object [("a", .integer 1),
        ("b", .array [.boolean true, .string "x"])])).bind from_dynamic_to_value =
      .ok (.object [("a", .integer 1),
        ("b", .array [.boolean true, .string "x"])]) :=
  ⟨rfl, roundtrip_structural _ rfl⟩

/-- C2: The host-to-script conversion is total: for every well-formed Tagged
Value, including the opaque extension variants, `from_value_to_dynamic`
returns `Ok`; its error branch is never taken. -/
theorem from_value_to_dynamic_total (v : AgentValue) :
    ∃ d, from_value_to_dynamic v = .ok d :=
  fvtd_total_val v

/-- C3: A native value of a non-enumerated type fails with the
unsupported-native-type error carrying the native type's name; a value of one
of the enumerated types never takes that error branch itself — any
unsupported-type error it reports names a native value occurring strictly
inside it. -/
theorem unsupported_native_type :
    (∀ typeName, from_dynamic_to_value (.foreign typeName) =
      .error (.invalidValue ("Unsupported Rhai data type: " ++ typeName))) ∧
    (∀ (d : Dyn) (e : AgentError), isForeign d = false →
      from_dynamic_to_value d = .error e →
      ∃ name, e = .invalidValue ("Unsupported Rhai data type: " ++ name) ∧
        hasForeign name d = true ∧ d ≠ .foreign name) := by
  constructor
  · intro typeName
    rfl
  · intro d e hnf he
    obtain ⟨name, he1, hf⟩ := fdtv_error_from_foreign d e he
    refine ⟨name, he1, hf, ?_⟩
    intro hd
    subst hd
    simp [isForeign] at hnf

/-- Witness for C3: a bare foreign value errors with its type name, and an
array containing a foreign element reports the element's type, not its own. -/
theorem unsupported_native_type_witness :
    from_dynamic_to_value (.foreign "core::time::Duration") =
      .error (.invalidValue ("Unsupported Rhai data type: " ++ "core::time::Duration")) ∧
    isForeign (.array [.unit, .foreign "char"]) = false ∧
    from_dynamic_to_value (.array [.unit, .foreign "char"]) =
      .error (.invalidValue ("Unsupported Rhai data type: " ++ "char")) ∧
    (∃ name,
      AgentError.invalidValue ("Unsupported Rhai data type: " ++ "char") =
        .invalidValue ("Unsupported Rhai data type: " ++ name) ∧
      hasForeign name (.array [.unit, .foreign "char"]) = true ∧
      (Dyn.array [.unit, .foreign "char"]) ≠ .foreign name) :=
  ⟨unsupported_native_type.1 "core::time::Duration", rfl, rfl,
    unsupported_native_type.2 (.array [.unit, .foreign "char"]) _ rfl rfl⟩

/-- C4: Constructing with empty script text, clearing via `set_script` with
empty text, or reconfiguring with empty text always leaves the agent in the
Uncompiled state (`ast = none`), and in that state `process` is a no-op:
no output, no error, for every input value. -/
theorem empty_script_uncompiled {AST : Type} (compile : String → Except String AST)
    (eval : AST → List (String × Dyn) → Except String Dyn)
    (self b : RhaiScriptAgent AST) (c : AgentConfigs) (v : AgentValue)
    (hc : c.get_string CONFIG_SCRIPT = .ok "")
    (hself : self.config = some c)
    (hb : b.ast = none) :
    new compile (some c) = .ok { config := some c, ast := none } ∧
    set_script compile self "" = (.ok (), { self with ast := none }) ∧
    configs_changed compile self = (.ok (), { self with ast := none }) ∧
    process eval b v = (.ok [], b) := by
  have hempty : ("" : String).isEmpty = true := rfl
  refine ⟨?_, ?_, ?_, ?_⟩
  · simp [new, hc, Except.toOption, hempty]
  · simp [set_script, hempty]
  · simp [configs_changed, RhaiScriptAgent.configs, hself, hc, hempty]
  · simp [process, hb]

/-- Witness for C4 with a concrete empty-script configuration. -/
theorem empty_script_uncompiled_witness :
    (⟨fun _ => .ok ""⟩ : AgentConfigs).get_string CONFIG_SCRIPT = .ok "" ∧
    ({ config := some ⟨fun _ => .ok ""⟩, ast := some () } :
      RhaiScriptAgent Unit).config = some ⟨fun _ => .ok ""⟩ ∧
    ({ config := none, ast := none } : RhaiScriptAgent Unit).ast = none ∧
    (new (fun _ => .ok ()) (some ⟨fun _ => .ok ""⟩) =
        .ok { config := some ⟨fun _ => .ok ""⟩, ast := none } ∧
      set_script (fun _ => .ok ())
          ({ config := some ⟨fun _ => .ok ""⟩, ast := some () } : RhaiScriptAgent Unit) "" =
        (.ok (), { config := some ⟨fun _ => .ok ""⟩, ast := none }) ∧
      configs_changed (fun _ => .ok ())
          ({ config := some ⟨fun _ => .ok ""⟩, ast := some () } : RhaiScriptAgent Unit) =
        (.ok (), { config := some ⟨fun _ => .ok ""⟩, ast := none }) ∧
      process (fun _ _ => .ok .unit)
          ({ config := none, ast := none } : RhaiScriptAgent Unit) (.integer 7) =
        (.ok [], { config := none, ast := none })) :=
  ⟨rfl, rfl, rfl,
    empty_script_uncompiled (fun _ => .ok ()) (fun _ _ => .ok .unit)
      { config := some ⟨fun _ => .ok ""⟩, ast := some () }
      { config := none, ast := none } ⟨fun _ => .ok ""⟩ (.integer 7) rfl rfl rfl⟩

/-- C5: Construction with a non-empty script is atomic: if compilation fails,
`new` returns the compile error and no agent is created; if it succeeds, the
constructed agent is Ready, holding the compiled program. -/
theorem construction_atomic {AST : Type} (compile : String → Except String AST)
    (c : AgentConfigs) (s msg : String) (p : AST)
    (hs : c.get_string CONFIG_SCRIPT = .ok s)
    (hne : s.isEmpty = false) :
    (compile s = .error msg →
      new compile (some c) = .error (.ioError ("Rhai Compile Error: " ++ msg))) ∧
    (compile s = .ok p →
      new compile (some c) = .ok { config := some c, ast := some p }) := by
  constructor
  · intro hcomp
    simp [new, hs, hne, set_script, hcomp, Except.toOption]
  · intro hcomp
    simp [new, hs, hne, set_script, hcomp, Except.toOption]

/-- Witness for C5 with the spec's incomplete script text and both a failing
and a succeeding compiler. -/
theorem construction_atomic_witness :
    (⟨fun _ => .ok "1 +"⟩ : AgentConfigs).get_string CONFIG_SCRIPT = .ok "1 +" ∧
    "1 +".isEmpty = false ∧
    new (fun _ => (.error "syntax error" : Except String Unit))
        (some ⟨fun _ => .ok "1 +"⟩) =
      .error (.ioError ("Rhai Compile Error: " ++ "syntax error")) ∧
    new (fun _ => (.ok () : Except String Unit)) (some ⟨fun _ => .ok "1 +"⟩) =
      .ok { config := some ⟨fun _ => .ok "1 +"⟩, ast := some () } :=
  ⟨rfl, rfl,
    (construction_atomic (fun _ => .error "syntax error") ⟨fun _ => .ok "1 +"⟩
      "1 +" "syntax error" () rfl rfl).1 rfl,
    (construction_atomic (fun _ => .ok ()) ⟨fun _ => .ok "1 +"⟩
      "1 +" "syntax error" () rfl rfl).2 rfl⟩

/-- C6: In the Ready state, a runtime fault of the script makes `process`
return the runtime error wrapping the engine's diagnostic, emit no output,
and leave the stored program unchanged, so a subsequent invocation of the
same agent executes the same program normally. -/
theorem runtime_error_preserves_program {AST : Type}
    (eval : AST → List (String × Dyn) → Except String Dyn)
    (a : RhaiScriptAgent AST) (p : AST) (v v2 : AgentValue) (d d2 r2 : Dyn)
    (out : AgentValue) (msg : String)
    (hast : a.ast = some p)
    (hd : from_value_to_dynamic v = .ok d)
    (herr : eval p [("value", d)] = .error msg)
    (hd2 : from_value_to_dynamic v2 = .ok d2)
    (hok2 : eval p [("value", d2)] = .ok r2)
    (hconv2 : from_dynamic_to_value r2 = .ok out) :
    process eval a v = (.error (.ioError ("Rhai Runtime Error: " ++ msg)), a) ∧
    process eval a v2 = (.ok [out], a) := by
  constructor
  · simp [process, hast, hd, herr]
  · simp [process, hast, hd2, hok2, hconv2]

/-- Witness for C6: an engine that faults on the boolean input but evaluates
the unit input to 42; the same agent value is returned in both invocations. -/
theorem runtime_error_preserves_program_witness :
    ({ config := none, ast := some () } : RhaiScriptAgent Unit).ast = some () ∧
    from_value_to_dynamic (.boolean true) = .ok (.boolean true) ∧
    (fun (_ : Unit) (scope : List (String × Dyn)) =>
      match scope with
      | [(_, Dyn.boolean true)] => (.error "boom" : Except String Dyn)
      | _ => .ok (.int 42)) () [("value", .boolean true)] = .error "boom" ∧
    from_value_to_dynamic .unit = .ok .unit ∧
    (fun (_ : Unit) (scope : List (String × Dyn)) =>
      match scope with
      | [(_, Dyn.boolean true)] => (.error "boom" : Except String Dyn)
      | _ => .ok (.int 42)) () [("value", .unit)] = .ok (.int 42) ∧
    from_dynamic_to_value (.int 42) = .ok (.integer 42) ∧
    process (fun (_ : Unit) (scope : List (String × Dyn)) =>
        match scope with
        | [(_, Dyn.boolean true)] => (.error "boom" : Except String Dyn)
        | _ => .ok (.int 42))
        { config := none, ast := some () } (.boolean true) =
      (.error (.ioError ("Rhai Runtime Error: " ++ "boom")),
        { config := none, ast := some () }) ∧
    process (fun (_ : Unit) (scope : List (String × Dyn)) =>
        match scope with
        | [(_, Dyn.boolean true)] => (.error "boom" : Except String Dyn)
        | _ => .ok (.int 42))
        { config := none, ast := some () } .unit =
      (.ok [.integer 42], { config := none, ast := some () }) := by
  have h := runtime_error_preserves_program
    (fun (_ : Unit) (scope : List (String × Dyn)) =>
      match scope with
      | [(_, Dyn.boolean true)] => (.error "boom" : Except String Dyn)
      | _ => .ok (.int 42))
    { config := none, ast := some () } () (.boolean true) .unit
    (.boolean true) .unit (.int 42) (.integer 42) "boom"
    rfl rfl rfl rfl rfl rfl
  exact ⟨rfl, rfl, rfl, rfl, rfl, rfl, h.1, h.2⟩

/-- C7: When converting an ordered sequence or string-keyed map, a failing
nested element aborts the whole conversion with the first failing element's
error; no partially converted value is returned. -/
theorem nested_failure_all_or_nothing (pre post : List Dyn)
    (mpre mpost : List (String × Dyn)) (k : String) (x : Dyn) (e : AgentError)
    (hpre : ∀ y ∈ pre, ∃ v, from_dynamic_to_value y = .ok v)
    (hmpre : ∀ q ∈ mpre, ∃ v, from_dynamic_to_value q.2 = .ok v)
    (hx : from_dynamic_to_value x = .error e) :
    from_dynamic_to_value (.array (pre ++ x :: post)) = .error e ∧
    from_dynamic_to_value (.map (mpre ++ (k, x) :: mpost)) = .error e := by
  have h1 := fdtvList_first_error x e post pre hpre hx
  have h2 := fdtvMap_first_error k x e mpost mpre hmpre hx
  exact ⟨by simp [from_dynamic_to_value, h1], by simp [from_dynamic_to_value, h2]⟩

/-- Witness for C7: the foreign element in second position aborts the array
and the map conversion with its own error. -/
theorem nested_failure_all_or_nothing_witness :
    (∀ y ∈ [Dyn.unit], ∃ v, from_dynamic_to_value y = .ok v) ∧
    (∀ q ∈ [("a", Dyn.boolean true)], ∃ v, from_dynamic_to_value q.2 = .ok v) ∧
    from_dynamic_to_value (.foreign "char") =
      .error (.invalidValue ("Unsupported Rhai data type: " ++ "char")) ∧
    from_dynamic_to_value (.array ([Dyn.unit] ++ .foreign "char" :: [.int 7])) =
      .error (.invalidValue ("Unsupported Rhai data type: " ++ "char")) ∧
    from_dynamic_to_value (.map ([("a", Dyn.boolean true)] ++ ("k", .foreign "char") :: [])) =
      .error (.invalidValue ("Unsupported Rhai data type: " ++ "char")) := by
  have hpre : ∀ y ∈ [Dyn.unit], ∃ v, from_dynamic_to_value y = .ok v := by
    intro y hy
    simp only [List.mem_singleton] at hy
    subst hy
    exact ⟨.unit, rfl⟩
  have hmpre : ∀ q ∈ [("a", Dyn.boolean true)], ∃ v, from_dynamic_to_value q.2 = .ok v := by
    intro q hq
    simp only [List.mem_singleton] at hq
    subst hq
    exact ⟨.boolean true, rfl⟩
  have h := nested_failure_all_or_nothing [.unit] [.int 7] [("a", .boolean true)] []
    "k" (.foreign "char")
    (.invalidValue ("Unsupported Rhai data type: " ++ "char")) hpre hmpre rfl
  exact ⟨hpre, hmpre, rfl, h.1, h.2⟩

/-- C8: A Tagged Value of a variant outside the seven structural ones is
wrapped unconverted into the native opaque slot, and converting that wrapped
native value back extracts exactly the original Tagged Value. -/
theorem other_variant_wrap_roundtrip (payload : Nat) :
    from_value_to_dynamic (.other payload) = .ok (.wrapped (.other payload)) ∧
    from_dynamic_to_value (.wrapped (.other payload)) = .ok (.other payload) :=
  ⟨rfl, rfl⟩

/-- C9: If `configs_changed` runs while a compiled program is stored and the
new non-empty script fails to compile, the compile error is returned and the
previously stored program is left unchanged (graceful degradation). -/
theorem reconfigure_failure_keeps_program {AST : Type}
    (compile : String → Except String AST) (a : RhaiScriptAgent AST)
    (c : AgentConfigs) (p : AST) (s msg : String)
    (hconf : a.config = some c)
    (hast : a.ast = some p)
    (hs : c.get_string CONFIG_SCRIPT = .ok s)
    (hne : s.isEmpty = false)
    (hcomp : compile s = .error msg) :
    configs_changed compile a =
      (.error (.ioError ("Rhai Compile Error: " ++ msg)), a) ∧
    (configs_changed compile a).2.ast = some p := by
  have h : configs_changed compile a =
      (.error (.ioError ("Rhai Compile Error: " ++ msg)), a) := by
    simp [configs_changed, RhaiScriptAgent.configs, hconf, hs, hne, hcomp]
  refine ⟨h, ?_⟩
  rw [h]
  exact hast

/-- Witness for C9: a Ready agent reconfigured with a script its compiler
rejects keeps its old program. -/
theorem reconfigure_failure_keeps_program_witness :
    ({ config := some ⟨fun _ => .ok "1 +"⟩, ast := some 5 } :
      RhaiScriptAgent Nat).config = some ⟨fun _ => .ok "1 +"⟩ ∧
    ({ config := some ⟨fun _ => .ok "1 +"⟩, ast := some 5 } :
      RhaiScriptAgent Nat).ast = some 5 ∧
    (⟨fun _ => .ok "1 +"⟩ : AgentConfigs).get_string CONFIG_SCRIPT = .ok "1 +" ∧
    "1 +".isEmpty = false ∧
    (fun (_ : String) => (.error "syntax error" : Except String Nat)) "1 +" =
      .error "syntax error" ∧
    configs_changed (fun _ => (.error "syntax error" : Except String Nat))
        { config := some ⟨fun _ => .ok "1 +"⟩, ast := some 5 } =
      (.error (.ioError ("Rhai Compile Error: " ++ "syntax error")),
        { config := some ⟨fun _ => .ok "1 +"⟩, ast := some 5 }) ∧
    (configs_changed (fun _ => (.error "syntax error" : Except String Nat))
        { config := some ⟨fun _ => .ok "1 +"⟩, ast := some 5 }).2.ast = some 5 := by
  have h := reconfigure_failure_keeps_program
    (fun _ => (.error "syntax error" : Except String Nat))
    { config := some ⟨fun _ => .ok "1 +"⟩, ast := some 5 }
    ⟨fun _ => .ok "1 +"⟩ 5 "1 +" "syntax error" rfl rfl rfl rfl rfl
  exact ⟨rfl, rfl, rfl, rfl, rfl, h.1, h.2⟩

/-- C10: A configuration whose script-text read fails still lets `new`
construct the agent successfully in the Uncompiled state (the read error is
discarded), whereas `configs_changed` on that same agent propagates the read
failure as its error. -/
theorem config_read_failure_asymmetry {AST : Type}
    (compile : String → Except String AST) (c : AgentConfigs) (e : AgentError)
    (hfail : c.get_string CONFIG_SCRIPT = .error e) :
    new compile (some c) = .ok { config := some c, ast := none } ∧
    configs_changed compile ({ config := some c, ast := none } : RhaiScriptAgent AST) =
      (.error e, { config := some c, ast := none }) := by
  have hempty : ("" : String).isEmpty = true := rfl
  constructor
  · simp [new, hfail, Except.toOption, hempty]
  · simp [configs_changed, RhaiScriptAgent.configs, hfail]

/-- Witness for C10 with a concrete failing configuration read. -/
theorem config_read_failure_asymmetry_witness :
    (⟨fun _ => .error (.ioError "read failed")⟩ : AgentConfigs).get_string
        CONFIG_SCRIPT = .error (.ioError "read failed") ∧
    new (fun _ => (.ok () : Except String Unit))
        (some ⟨fun _ => .error (.ioError "read failed")⟩) =
      .ok { config := some ⟨fun _ => .error (.ioError "read failed")⟩, ast := none } ∧
    configs_changed (fun _ => (.ok () : Except String Unit))
        ({ config := some ⟨fun _ => .error (.ioError "read failed")⟩, ast := none } :
          RhaiScriptAgent Unit) =
      (.error (.ioError "read failed"),
        { config := some ⟨fun _ => .error (.ioError "read failed")⟩, ast := none }) := by
  have h := config_read_failure_asymmetry (fun _ => (.ok () : Except String Unit))
    ⟨fun _ => .error (.ioError "read failed")⟩ (.ioError "read failed") rfl
  exact ⟨rfl, h.1, h.2⟩

end RhaiAgents
